import Mathlib

/-!
Shallow embedding of the urj-month-end-tracker month-end reconciliation
program (src/index.js and src/utils/logger.js) and proofs about it.

src/index.js contains two revisions of the scheduler/sync/finalize logic:
an earlier one (lines 34-348, suffixed `V1` here where both are modelled)
and the current one built on the logger.js operation wrappers
(lines 418-710), plus the data-layer functions (lines 746-791).
Energy values are modelled as rationals, identifiers as strings, and the
external world (database writes, energy-reading fetches, the active-device
query) as an oracle `Env` saying which calls succeed and what they return.
A JavaScript function that can throw is modelled as returning
`Except Unit _`; a function that catches internally returns plainly.
-/

/-- A row returned by getActiveDevicesAndTheirUsage (src/index.js lines 746-752). -/
structure ActiveDevice where
  device_id : String
  aliasName : String
  usage_record_id : String
  ip_address : String
  consumption : ℚ
deriving DecidableEq, Repr

/-- An entry of the in-memory `trackingDevices` map (src/index.js lines 393-404). -/
structure TrackedDevice where
  device_id : String
  aliasName : String
  usage_record_id : String
  ip_address : String
  consumption : ℚ
  month_energy : ℚ
deriving DecidableEq, Repr

/-- Association-list update with JavaScript Map semantics: an existing key is
overwritten in place, a new key is appended (insertion order preserved). -/
def assocSet {κ β : Type} [BEq κ] (l : List (κ × β)) (k : κ) (v : β) : List (κ × β) :=
  if l.any (fun p => p.1 == k) then l.map (fun p => if p.1 == k then (k, v) else p)
  else l ++ [(k, v)]

/-- Association-list lookup. -/
def assocGet {κ β : Type} [BEq κ] (l : List (κ × β)) (k : κ) : Option β :=
  (l.find? (fun p => p.1 == k)).map (fun p => p.2)

/-- The persisted `usage` table columns the program writes: per usage-record id,
the is_tracking_previous_month flag and the previous_month_accumulated value. -/
structure DBState where
  flags : List (String × Bool)
  stored : List (String × ℚ)
deriving DecidableEq, Repr

/-- The mutable state the program threads: the in-memory trackingDevices map
(as an insertion-ordered list keyed by device_id) and the database. -/
structure SysState where
  tracker : List TrackedDevice
  db : DBState
deriving DecidableEq, Repr

/-- Oracle for the external world: what readMonthEnergy returns per ip address
(none = the fetch/parse throws), whether the UPDATE behind updateTrackingFlag
succeeds per usage-record id, whether the UPDATE behind
storePreviousMonthAccumulated succeeds per usage-record id, and what
getActiveDevicesAndTheirUsage returns (none = the query throws). -/
structure Env where
  fetchResult : String → Option ℚ
  flagWriteOk : String → Bool
  storeWriteOk : String → Bool
  activeResult : Option (List ActiveDevice)

/-- trackingDevices.has (JS Map keyed by device_id). -/
def mapHas (m : List TrackedDevice) (id : String) : Bool :=
  m.any (fun d => d.device_id == id)

/-- trackingDevices.set: overwrite in place if present, else append. -/
def mapSet (m : List TrackedDevice) (d : TrackedDevice) : List TrackedDevice :=
  if mapHas m d.device_id then m.map (fun e => if e.device_id == d.device_id then d else e)
  else m ++ [d]

/-- trackingDevices.delete. -/
def mapDelete (m : List TrackedDevice) (id : String) : List TrackedDevice :=
  m.filter (fun d => d.device_id != id)

/-- updateTrackingFlag (src/index.js lines 755-772): runs the UPDATE and, on a
write failure, catches the error and only logs it — it returns normally in
both cases, so no failure ever propagates to its caller. -/
def updateTrackingFlag (env : Env) (db : DBState) (usageRecordId : String)
    (isTracking : Bool) : DBState :=
  if env.flagWriteOk usageRecordId then
    { db with flags := assocSet db.flags usageRecordId isTracking }
  else db

/-- storePreviousMonthAccumulated (src/index.js lines 775-791): one UPDATE sets
previous_month_accumulated and clears is_tracking_previous_month; on a write
failure the error is caught and logged — the function returns normally in both
cases, so no failure ever propagates to its caller. -/
def storePreviousMonthAccumulated (env : Env) (db : DBState) (usageRecordId : String)
    (accumulatedValue : ℚ) : DBState :=
  if env.storeWriteOk usageRecordId then
    { db with
        stored := assocSet db.stored usageRecordId accumulatedValue,
        flags := assocSet db.flags usageRecordId false }
  else db

/-- getCurrentMonthEnergy (src/index.js lines 678-710): returns the reading, or
throws when the underlying fetch/parse failed (the wrapper re-throws on
`!result.success`). `none` models the throw. -/
def getCurrentMonthEnergy (env : Env) (device_ip_address : String) : Option ℚ :=
  env.fetchResult device_ip_address

/-- executeOperation (src/utils/logger.js lines 44-61): runs the operation,
catches any throw, and reports only `success : Bool`; the operation's returned
value is discarded. State mutations made before a throw persist. -/
def executeOperation {σ α : Type} (op : σ → σ × Except Unit α) (s : σ) : σ × Bool :=
  match op s with
  | (s1, Except.ok _) => (s1, true)
  | (s1, Except.error _) => (s1, false)

/-- Accumulating loop of executeBatchOperation (src/utils/logger.js
lines 96-104): every item is processed in order; the processor's success flag
only moves a counter, it never stops the loop. -/
def runBatchItems {σ α : Type} (proc : α → σ → σ × Bool) :
    List α → σ → Nat → Nat → σ × Nat × Nat
  | [], s, succ, fail => (s, succ, fail)
  | item :: rest, s, succ, fail =>
    let r := proc item s
    if r.2 then runBatchItems proc rest r.1 (succ + 1) fail
    else runBatchItems proc rest r.1 succ (fail + 1)

/-- Aggregate result of executeBatchOperation (src/utils/logger.js line 116). -/
structure BatchResult where
  successCount : Nat
  failureCount : Nat
  hasErrors : Bool
deriving DecidableEq, Repr

/-- executeBatchOperation (src/utils/logger.js lines 83-117): processes every
item, counts successes and failures, and reports hasErrors = failureCount > 0. -/
def executeBatchOperation {σ α : Type} (items : List α) (proc : α → σ → σ × Bool)
    (s : σ) : σ × BatchResult :=
  let r := runBatchItems proc items s 0 0
  (r.1, ⟨r.2.1, r.2.2, r.2.2 != 0⟩)

/-- Body of the ADD-TO-TRACKING device operation (src/index.js lines 552-573):
fetch the reading (throwing aborts the step before any mutation), then run the
flag update (which never throws, see updateTrackingFlag), then insert the
device into trackingDevices. -/
def addToTrackingOp (env : Env) (device : ActiveDevice) (s : SysState) :
    SysState × Except Unit Unit :=
  match getCurrentMonthEnergy env device.ip_address with
  | none => (s, Except.error ())
  | some month_energy =>
    let db1 := updateTrackingFlag env s.db device.usage_record_id true
    let tracker1 := mapSet s.tracker
      ⟨device.device_id, device.aliasName, device.usage_record_id,
       device.ip_address, device.consumption, month_energy⟩
    (⟨tracker1, db1⟩, Except.ok ())

/-- syncActiveDevices (src/index.js lines 537-577): filter the active list down
to devices not yet tracked (against the tracker as of entry), return early when
there are none, else run the ADD-TO-TRACKING batch. -/
def syncActiveDevices (env : Env) (currentActiveDevices : List ActiveDevice)
    (s : SysState) : SysState × BatchResult :=
  let newDevices := currentActiveDevices.filter (fun d => !(mapHas s.tracker d.device_id))
  if newDevices.isEmpty then (s, ⟨0, 0, false⟩)
  else executeBatchOperation newDevices
    (fun d t => executeOperation (addToTrackingOp env d) t) s

/-- Body of the REMOVE-FROM-TRACKING device operation (src/index.js
lines 596-610): clear the flag (never throws), then delete from the tracker. -/
def removeFromTrackingOp (env : Env) (td : TrackedDevice) (s : SysState) :
    SysState × Except Unit Unit :=
  let db1 := updateTrackingFlag env s.db td.usage_record_id false
  (⟨mapDelete s.tracker td.device_id, db1⟩, Except.ok ())

/-- Body of the UPDATE-MONTH-ENERGY device operation (src/index.js
lines 613-625): fetch the fresh reading (throwing aborts the step), then
overwrite the tracker entry's month_energy. -/
def updateMonthEnergyOp (env : Env) (td : TrackedDevice) (s : SysState) :
    SysState × Except Unit Unit :=
  match getCurrentMonthEnergy env td.ip_address with
  | none => (s, Except.error ())
  | some v => (⟨mapSet s.tracker { td with month_energy := v }, s.db⟩, Except.ok ())

/-- syncInactiveDevices (src/index.js lines 583-629): snapshot the tracker,
then per tracked device either remove it (no longer active) or refresh its
reading. -/
def syncInactiveDevices (env : Env) (currentActiveDeviceIds : List String)
    (s : SysState) : SysState × BatchResult :=
  let trackedDevicesArray := s.tracker
  executeBatchOperation trackedDevicesArray
    (fun td t =>
      if !(currentActiveDeviceIds.contains td.device_id) then
        executeOperation (removeFromTrackingOp env td) t
      else
        executeOperation (updateMonthEnergyOp env td) t) s

/-- monitorAndSyncTracking (src/index.js lines 507-524): wraps the whole sync
in executeOperation and returns its success flag. Only the active-device query
can throw inside the wrapped operation (the two sync passes return batch
results that are discarded and themselves never throw), so the returned flag
is exactly whether that query succeeded. -/
def monitorAndSyncTracking (env : Env) (s : SysState) : SysState × Bool :=
  match env.activeResult with
  | none => (s, false)
  | some currentActiveDevices =>
    let currentActiveDeviceIds := currentActiveDevices.map (fun d => d.device_id)
    let r1 := syncInactiveDevices env currentActiveDeviceIds s
    let r2 := syncActiveDevices env currentActiveDevices r1.1
    (r2.1, true)

/-- Body of the STORE-ACCUMULATED-VALUE device operation (src/index.js
lines 641-653): accumulatedValue = month_energy - consumption, passed to
storePreviousMonthAccumulated (which never throws). -/
def storeAccumulatedOp (env : Env) (td : TrackedDevice) (s : SysState) :
    SysState × Except Unit Unit :=
  let finalMonthEnergy := td.month_energy
  let accumulatedValue := finalMonthEnergy - td.consumption
  (⟨s.tracker,
    storePreviousMonthAccumulated env s.db td.usage_record_id accumulatedValue⟩,
   Except.ok ())

/-- finalizeMonthEndTracking (src/index.js lines 632-676): snapshot the
tracker, run the STORE-ACCUMULATED-VALUE batch over it, unconditionally clear
the tracker, and return true iff the batch reported no errors. -/
def finalizeMonthEndTracking (env : Env) (s : SysState) : SysState × Bool :=
  let trackedDevicesArray := s.tracker
  let r := executeBatchOperation trackedDevicesArray
    (fun td t => executeOperation (storeAccumulatedOp env td) t) s
  (⟨[], r.1.db⟩, !r.2.hasErrors)

/-- Per-device step of the earlier finalizeMonthEndTracking revision
(src/index.js lines 271-311): try the final read, falling back to the stored
month_energy and setting hasErrors on a FetchError; then store the difference
(storePreviousMonthAccumulated never throws, so the inner catch that would
also set hasErrors on a store failure is unreachable). -/
def finalizeDeviceV1 (env : Env) (td : TrackedDevice) (acc : DBState × Bool) :
    DBState × Bool :=
  let r :=
    match getCurrentMonthEnergy env td.ip_address with
    | some v => (v, acc.2)
    | none => (td.month_energy, true)
  let accumulatedValue := r.1 - td.consumption
  (storePreviousMonthAccumulated env acc.1 td.usage_record_id accumulatedValue, r.2)

/-- The earlier finalizeMonthEndTracking revision (src/index.js lines 264-329):
fold the per-device step over the tracker accumulating hasErrors, clear the
tracker, and return !hasErrors. -/
def finalizeMonthEndTrackingV1 (env : Env) (s : SysState) : SysState × Bool :=
  let r := s.tracker.foldl (fun acc td => finalizeDeviceV1 env td acc) (s.db, false)
  (⟨[], r.1⟩, !r.2)

/-- The minuteExecutionStatus ledger, keyed by (hour, minute) — the JS key is
the string interpolation of the two, injective on the window's keys. -/
abbrev Ledger := List ((Nat × Nat) × Bool)

/-- minuteExecutionStatus.has. -/
def ledgerHas (l : Ledger) (k : Nat × Nat) : Bool := l.any (fun p => p.1 == k)

/-- minuteExecutionStatus.get. -/
def ledgerGet (l : Ledger) (k : Nat × Nat) : Option Bool := assocGet l k

/-- minuteExecutionStatus.set. -/
def ledgerSet (l : Ledger) (k : Nat × Nat) (v : Bool) : Ledger := assocSet l k v

/-- The skip guard of the current polling loop (src/index.js lines 450-456):
skip the minute when the key is already present OR recorded true; the first
disjunct makes any attempted minute skipped, recorded failure or not. -/
def minuteAlreadyHandled (l : Ledger) (k : Nat × Nat) : Bool :=
  ledgerHas l k || (ledgerGet l k == some true)

/-- The process guard of the earlier polling-loop revision (src/index.js
lines 67-70): process the minute when the key is absent or recorded false. -/
def minuteNeedsProcessing (l : Ledger) (k : Nat × Nat) : Bool :=
  !(ledgerHas l k) || (ledgerGet l k == some false)

/-- The MONITORING-MINUTE step for minutes 55-58 (src/index.js lines 477-484):
executeOperation wraps `return await monitorAndSyncTracking()`, discards the
returned boolean, and reports success iff the operation did not throw —
monitorAndSyncTracking never throws, so the recorded flag is always true. -/
def monitoringMinuteStep (env : Env) (s : SysState) : SysState × Bool :=
  ((monitorAndSyncTracking env s).1, true)

/-- The FINALIZATION-MINUTE step for minute 59 (src/index.js lines 458-467):
executeOperation wraps sync-then-finalize, discards finalizeMonthEndTracking's
returned boolean, and reports success iff the operation did not throw —
neither callee throws, so the recorded flag is always true. -/
def finalizationMinuteStep (env : Env) (s : SysState) : SysState × Bool :=
  ((finalizeMonthEndTracking env (monitorAndSyncTracking env s).1).1, true)

/-- Outcome of a run of the polling loop: the ledger, the program state, and
how many times finalizeMonthEndTracking was invoked. -/
structure LoopOutcome where
  ledger : Ledger
  state : SysState
  finalizeCount : Nat
deriving DecidableEq, Repr

/-- The polling loop of checkAndPollTapoDevices (src/index.js lines 441-496),
driven by the finite trace of (hour, minute) pairs the 1-second ticks observe.
Per tick: inside the window {55..59}, a minute whose key the skip guard
accepts is skipped (continue); an unhandled minute 59 runs the
FINALIZATION-MINUTE step, records its reported success under the key, and
breaks unconditionally; an unhandled minute 55-58 runs the MONITORING-MINUTE
step and records its reported success. Outside the window, minute 0 breaks. -/
def checkAndPollLoop (env : Env) :
    List (Nat × Nat) → Ledger → SysState → Nat → LoopOutcome
  | [], l, s, c => ⟨l, s, c⟩
  | (h, m) :: rest, l, s, c =>
    if m == 55 || m == 56 || m == 57 || m == 58 || m == 59 then
      if minuteAlreadyHandled l (h, m) then checkAndPollLoop env rest l s c
      else if m == 59 then
        let r := finalizationMinuteStep env s
        ⟨ledgerSet l (h, m) r.2, r.1, c + 1⟩
      else
        let r := monitoringMinuteStep env s
        checkAndPollLoop env rest (ledgerSet l (h, m) r.2) r.1 c
    else if m == 0 then ⟨l, s, c⟩
    else checkAndPollLoop env rest l s c

/-- Concrete active device matching the spec's worked example (baseline 10). -/
def dev1 : ActiveDevice := ⟨"d1", "Device-1", "u1", "ip1", 10⟩

/-- Second concrete active device. -/
def dev2 : ActiveDevice := ⟨"d2", "Device-2", "u2", "ip2", 0⟩

/-- dev1 as tracked, with last observed reading 45.5. -/
def td1 : TrackedDevice := ⟨"d1", "Device-1", "u1", "ip1", 10, 45.5⟩

/-- A tracked device whose baseline exceeds its reading (counter reset). -/
def tdNeg : TrackedDevice := ⟨"d2", "Device-2", "u2", "ip2", 50, 45.5⟩

/-- Empty database. -/
def emptyDB : DBState := ⟨[], []⟩

/-- Empty tracker over an empty database. -/
def s0 : SysState := ⟨[], emptyDB⟩

/-- One tracked device (td1) over an empty database. -/
def s1 : SysState := ⟨[td1], emptyDB⟩

/-- Environment where every external call succeeds and reads return 45.5. -/
def envAllOk : Env := ⟨fun _ => some 45.5, fun _ => true, fun _ => true, some [dev1]⟩

/-- Environment where the accumulated-value UPDATE fails for every record. -/
def envStoreFail : Env := ⟨fun _ => some 45.5, fun _ => true, fun _ => false, some [dev1]⟩

/-- Environment where the tracking-flag UPDATE fails for every record. -/
def envFlagFail : Env := ⟨fun _ => some 45.5, fun _ => false, fun _ => true, some [dev1]⟩

/-- Environment where every energy read throws. -/
def envFetchFail : Env := ⟨fun _ => none, fun _ => true, fun _ => true, some [dev1]⟩

/-- Environment where the active-device query throws. -/
def envNoActive : Env := ⟨fun _ => some 45.5, fun _ => true, fun _ => true, none⟩

/-- Environment where only device d1's energy read throws. -/
def envOneFetchFail : Env :=
  ⟨fun ip => if ip == "ip1" then none else some 45.5,
   fun _ => true, fun _ => true, some [dev1, dev2]⟩

/-- The accumulating batch loop visits every item in order (its state result is
the fold of the processor over the whole list) and tallies every item's
outcome (successes plus failures equals the item count). -/
theorem runBatchItems_spec {σ α : Type} (proc : α → σ → σ × Bool) :
    ∀ (items : List α) (s : σ) (a b : Nat),
      (runBatchItems proc items s a b).1 = items.foldl (fun t it => (proc it t).1) s ∧
      (runBatchItems proc items s a b).2.1 + (runBatchItems proc items s a b).2.2
        = a + b + items.length := by
  intro items
  induction items with
  | nil => intro s a b; simp [runBatchItems]
  | cons item rest ih =>
    intro s a b
    simp only [runBatchItems, List.foldl_cons, List.length_cons]
    by_cases h : (proc item s).2 <;> simp only [h, if_true, if_false, Bool.false_eq_true]
    · exact ⟨(ih _ _ _).1, by have := (ih (proc item s).1 (a + 1) b).2; omega⟩
    · exact ⟨(ih _ _ _).1, by have := (ih (proc item s).1 a (b + 1)).2; omega⟩

/-- Any run of the polling loop increments the finalizer-invocation count at
most once, whatever the tick trace, ledger, state and environment. -/
theorem checkAndPollLoop_count_le :
    ∀ (env : Env) (ticks : List (Nat × Nat)) (l : Ledger) (s : SysState) (c : Nat),
      (checkAndPollLoop env ticks l s c).finalizeCount ≤ c + 1 := by
  intro env ticks
  induction ticks with
  | nil => intro l s c; exact Nat.le_succ c
  | cons t rest ih =>
    intro l s c
    obtain ⟨h, m⟩ := t
    simp only [checkAndPollLoop]
    split
    · split
      · exact ih l s c
      · split
        · exact Nat.le_refl _
        · exact ih _ _ c
    · split
      · exact Nat.le_succ c
      · exact ih l s c

/-- Processing an unhandled minute-59 tick runs the finalization step, records
its reported result under the (hour, 59) key, counts one finalizer invocation,
and terminates the loop: the remaining ticks do not appear in the outcome. -/
theorem checkAndPollLoop_break59 :
    ∀ (env : Env) (h : Nat) (rest : List (Nat × Nat)) (l : Ledger) (s : SysState) (c : Nat),
      minuteAlreadyHandled l (h, 59) = false →
      checkAndPollLoop env ((h, 59) :: rest) l s c =
        ⟨ledgerSet l (h, 59) (finalizationMinuteStep env s).2,
         (finalizationMinuteStep env s).1, c + 1⟩ := by
  intro env h rest l s c hg
  simp [checkAndPollLoop, hg]

/-- Once the hasErrors flag of the earlier finalizer's fold is set, every
further device step preserves it. -/
theorem foldFinalizeV1_error (env : Env) :
    ∀ (tds : List TrackedDevice) (p : DBState × Bool), p.2 = true →
      (tds.foldl (fun acc td => finalizeDeviceV1 env td acc) p).2 = true := by
  intro tds
  induction tds with
  | nil => intro p hp; simpa using hp
  | cons td rest ih =>
    intro p hp
    simp only [List.foldl_cons]
    apply ih
    cases henv : getCurrentMonthEnergy env td.ip_address <;>
      simp [finalizeDeviceV1, henv, hp]

/-- If some device in the list has a failing energy read, the earlier
finalizer's fold ends with hasErrors set. -/
theorem foldFinalizeV1_mem_fail (env : Env) :
    ∀ (tds : List TrackedDevice) (p : DBState × Bool) (td : TrackedDevice),
      td ∈ tds → env.fetchResult td.ip_address = none →
      (tds.foldl (fun acc td => finalizeDeviceV1 env td acc) p).2 = true := by
  intro tds
  induction tds with
  | nil => intro p td hmem; simp at hmem
  | cons td0 rest ih =>
    intro p td hmem hf
    rcases List.mem_cons.mp hmem with rfl | hmem
    · simp only [List.foldl_cons]
      apply foldFinalizeV1_error
      simp [finalizeDeviceV1, getCurrentMonthEnergy, hf]
    · simp only [List.foldl_cons]
      exact ih _ td hmem hf

/-- C1. The claim says a minute key recorded as failed is re-invoked on a later
tick. The current loop diverges: (i) a failed minute's action (here the active
device listing throws, so monitorAndSyncTracking returns false) is recorded as
true in the ledger, because the minute wrapper discards the returned boolean,
and the second tick of the same minute does not re-invoke it; (ii) even a
ledger entry recorded false is skipped by the current guard, which treats any
present key as handled, while the earlier revision's guard re-processes
exactly such entries, as the claim states. -/
theorem ledgerGuard_skips_failed_minutes :
    (monitorAndSyncTracking envNoActive s0).2 = false ∧
    checkAndPollLoop envNoActive [(23, 55), (23, 55)] [] s0 0
      = ⟨[((23, 55), true)], s0, 0⟩ ∧
    minuteAlreadyHandled [((23, 55), false)] (23, 55) = true ∧
    minuteNeedsProcessing [((23, 55), false)] (23, 55) = true :=
  ⟨by decide, by decide, by decide, by decide⟩

/-- C2. A failing accumulated-value write is invisible to the finalizer:
storePreviousMonthAccumulated returns normally leaving the database untouched
(first conjunct: nothing persisted, no error signalled), the per-device store
operation reports success (second conjunct), and finalizeMonthEndTracking over
one device whose write fails returns true with the database unchanged (third
conjunct) — the device is never counted as a failure. -/
theorem storeFailure_counted_success :
    storePreviousMonthAccumulated envStoreFail emptyDB "u1" 35.5 = emptyDB ∧
    (executeOperation (storeAccumulatedOp envStoreFail td1) s1).2 = true ∧
    finalizeMonthEndTracking envStoreFail s1 = (⟨[], emptyDB⟩, true) :=
  ⟨by with_unfolding_all rfl, by with_unfolding_all rfl, by with_unfolding_all rfl⟩

/-- C3. With the persisted flag write failing for the one new active device,
syncActiveDevices still inserts the device into the in-memory tracker (first
conjunct) while the database flag was never set (second conjunct), because
updateTrackingFlag swallows the write failure and returns normally (third
conjunct) — the tracker does claim a device whose persisted state disagrees. -/
theorem tracker_insert_despite_flag_write_failure :
    (syncActiveDevices envFlagFail [dev1] s0).1.tracker = [td1] ∧
    (syncActiveDevices envFlagFail [dev1] s0).1.db.flags = [] ∧
    updateTrackingFlag envFlagFail emptyDB "u1" true = emptyDB :=
  ⟨by with_unfolding_all rfl, by with_unfolding_all rfl, by with_unfolding_all rfl⟩

/-- C4 counterexample. One new device's energy read fails, so its batch item is
recorded as a failure (second conjunct: 0 successes, 1 failure, hasErrors),
yet monitorAndSyncTracking still returns true for the cycle (first conjunct) —
refuting that the cycle result is failure whenever any item failed. -/
theorem monitorSync_success_despite_item_failure :
    (monitorAndSyncTracking envFetchFail s0).2 = true ∧
    (syncActiveDevices envFetchFail [dev1] s0).2 = ⟨0, 1, true⟩ :=
  ⟨by decide, by decide⟩

/-- C4 amended. monitorAndSyncTracking returns true exactly when the
active-device listing succeeds (the wrapped operation does not throw); the
per-item success and failure counts of the two sync batches are discarded and
never influence the cycle's returned result. -/
theorem monitorSync_success_iff_listing_ok :
    ∀ (env : Env) (s : SysState),
      (monitorAndSyncTracking env s).2 = env.activeResult.isSome := by
  intro env s
  cases h : env.activeResult <;> simp [monitorAndSyncTracking, h]

/-- C5. Devices in a batch are processed independently: executeBatchOperation
applies the per-item processor to every item in order — its resulting state is
the full fold, unaffected by individual failures, and every item is tallied
(successes plus failures equals the item count). Concretely, when the first of
two new devices fails its energy read, the second is still fetched, flagged in
the database and inserted into the tracker, and the batch reports one success
and one failure. -/
theorem batch_processes_all_items :
    (∀ (σ α : Type) (items : List α) (proc : α → σ → σ × Bool) (s : σ),
       (executeBatchOperation items proc s).1 = items.foldl (fun t it => (proc it t).1) s ∧
       (executeBatchOperation items proc s).2.successCount
         + (executeBatchOperation items proc s).2.failureCount = items.length) ∧
    (syncActiveDevices envOneFetchFail [dev1, dev2] s0).1.tracker
      = [⟨"d2", "Device-2", "u2", "ip2", 0, 45.5⟩] ∧
    (syncActiveDevices envOneFetchFail [dev1, dev2] s0).1.db.flags = [("u2", true)] ∧
    (syncActiveDevices envOneFetchFail [dev1, dev2] s0).2 = ⟨1, 1, true⟩ := by
  refine ⟨fun σ α items proc s => ?_,
    by with_unfolding_all rfl, by with_unfolding_all rfl, by with_unfolding_all rfl⟩
  have h := runBatchItems_spec proc items s 0 0
  exact ⟨h.1, by simpa using h.2⟩

/-- C6. At minute 59 the loop runs sync followed by the finalizer as one step,
records that step's reported result under the minute's ledger key, and exits
unconditionally regardless of the result — the remaining tick trace never
reaches the outcome (second conjunct); consequently no run of the loop ever
invokes the finalizer a second time (first conjunct: the invocation count
grows by at most one from any starting point). -/
theorem finalization_minute_single_shot :
    (∀ (env : Env) (ticks : List (Nat × Nat)) (l : Ledger) (s : SysState) (c : Nat),
       (checkAndPollLoop env ticks l s c).finalizeCount ≤ c + 1) ∧
    (∀ (env : Env) (h : Nat) (rest : List (Nat × Nat)) (l : Ledger) (s : SysState) (c : Nat),
       minuteAlreadyHandled l (h, 59) = false →
       checkAndPollLoop env ((h, 59) :: rest) l s c =
         ⟨ledgerSet l (h, 59) (finalizationMinuteStep env s).2,
          (finalizationMinuteStep env s).1, c + 1⟩) :=
  ⟨checkAndPollLoop_count_le, checkAndPollLoop_break59⟩

/-- C6 witness: a concrete run with the minute-59 key unhandled stops after a
single finalizer invocation even though more minute-59 ticks follow. -/
theorem finalization_minute_single_shot_w :
    (checkAndPollLoop envAllOk [(23, 59), (23, 59)] [] s1 0).finalizeCount ≤ 1 ∧
    checkAndPollLoop envAllOk [(23, 59)] [] s1 0 =
      ⟨ledgerSet [] (23, 59) (finalizationMinuteStep envAllOk s1).2,
       (finalizationMinuteStep envAllOk s1).1, 1⟩ :=
  ⟨finalization_minute_single_shot.1 envAllOk [(23, 59), (23, 59)] [] s1 0,
   finalization_minute_single_shot.2 envAllOk 23 [] [] s1 0 rfl⟩

/-- C7. The value the finalizer hands to the commit operation is exactly
month_energy minus consumption, with no clamping (first conjunct, for every
device and state); concretely, baseline 10 with final reading 45.5 persists
35.5, and a reading below the baseline persists the negative difference -4.5
exactly as computed. -/
theorem finalizer_commits_unclamped_difference :
    (∀ (env : Env) (td : TrackedDevice) (s : SysState),
       (storeAccumulatedOp env td s).1.db =
         storePreviousMonthAccumulated env s.db td.usage_record_id
           (td.month_energy - td.consumption)) ∧
    (45.5 : ℚ) - 10 = 35.5 ∧
    (finalizeMonthEndTracking envAllOk s1).1.db.stored = [("u1", 35.5)] ∧
    (finalizeMonthEndTracking envAllOk ⟨[tdNeg], emptyDB⟩).1.db.stored = [("u2", -4.5)] :=
  ⟨fun _ _ _ => rfl, by norm_num, by with_unfolding_all rfl, by with_unfolding_all rfl⟩

/-- C8. After finalizeMonthEndTracking returns — in either revision — the
tracker is empty, for every starting state and every pattern of per-device
outcomes: the clear is unconditional. -/
theorem finalize_clears_tracker :
    ∀ (env : Env) (s : SysState),
      (finalizeMonthEndTracking env s).1.tracker = [] ∧
      (finalizeMonthEndTrackingV1 env s).1.tracker = [] :=
  fun _ _ => ⟨rfl, rfl⟩

/-- C9 counterexample. In the revision whose finalizer re-reads each device
(the only one where a final read can fail), a device whose read fails but
whose fallback commit succeeds — the fallback 45.5 - 10 = 35.5 is persisted
and the tracking flag cleared — still makes finalizeMonthEndTrackingV1 return
false, refuting that the device counts as a failure only if persisting the
fallback also fails. -/
theorem finalizeV1_fetchFail_persistOk_reports_failure :
    finalizeMonthEndTrackingV1 envFetchFail s1
      = (⟨[], ⟨[("u1", false)], [("u1", 35.5)]⟩⟩, false) := by
  with_unfolding_all rfl

/-- C9 amended. When a device's final energy read fails, the earlier finalizer
still commits the fallback value, stored month_energy minus consumption, via
storePreviousMonthAccumulated and sets the error flag (first conjunct); and
whenever any tracked device's read fails, the cycle result is false regardless
of whether the fallback commit succeeded (second conjunct). -/
theorem finalizeV1_fetchFail_commits_fallback :
    (∀ (env : Env) (td : TrackedDevice) (db : DBState) (e : Bool),
       env.fetchResult td.ip_address = none →
       finalizeDeviceV1 env td (db, e) =
         (storePreviousMonthAccumulated env db td.usage_record_id
           (td.month_energy - td.consumption), true)) ∧
    (∀ (env : Env) (s : SysState) (td : TrackedDevice),
       td ∈ s.tracker → env.fetchResult td.ip_address = none →
       (finalizeMonthEndTrackingV1 env s).2 = false) := by
  constructor
  · intro env td db e hf
    simp [finalizeDeviceV1, getCurrentMonthEnergy, hf]
  · intro env s td hmem hf
    have h := foldFinalizeV1_mem_fail env s.tracker (s.db, false) td hmem hf
    simp [finalizeMonthEndTrackingV1, h]

/-- C9 witness: the amended statement instantiated at the concrete device
whose read fails while its commit succeeds. -/
theorem finalizeV1_fetchFail_commits_fallback_w :
    finalizeDeviceV1 envFetchFail td1 (emptyDB, false)
      = (storePreviousMonthAccumulated envFetchFail emptyDB td1.usage_record_id
          (td1.month_energy - td1.consumption), true) ∧
    (finalizeMonthEndTrackingV1 envFetchFail s1).2 = false :=
  ⟨finalizeV1_fetchFail_commits_fallback.1 envFetchFail td1 emptyDB false rfl,
   finalizeV1_fetchFail_commits_fallback.2 envFetchFail s1 td1 (by simp [s1]) rfl⟩

/-- C10. On an empty tracker the finalizer performs no commits (the database
is returned unchanged), leaves the tracker empty and returns true; and the
batch wrapper over an empty item list yields successCount 0, failureCount 0
and hasErrors false. -/
theorem finalize_empty_tracker :
    (∀ (env : Env) (db : DBState),
       finalizeMonthEndTracking env ⟨[], db⟩ = (⟨[], db⟩, true)) ∧
    (∀ (σ α : Type) (proc : α → σ → σ × Bool) (s : σ),
       executeBatchOperation [] proc s = (s, ⟨0, 0, false⟩)) :=
  ⟨fun _ _ => rfl, fun _ _ _ _ => rfl⟩
